import Mathlib

/-!
Shallow embedding of the SMAD sentiment-analysis service
(`src/sentiment-api/main.py`) and verification of its specification.

Modelling choices:
* The two HuggingFace pipelines are external collaborators.  A pipeline is
  modelled as a function `String → Except String (List RawLabelScore)`:
  it either throws (the `Except.error` message is the Python exception text)
  or returns the list of label/score dictionaries the `transformers`
  pipeline call produces.  A missing pipeline (the module-level global
  still being `None`) is `Option.none`.
* Confidences and times are rationals (`Rat`); the only arithmetic the
  service performs on them is negation, `0.0`, and subtraction of
  timestamps, all of which are exact.
* `datetime.now()` is modelled as an abstract stream of timestamps
  `now : Nat → Rat`, read at successive indices; every function takes the
  index `k` of the next clock read and returns the index after its own
  reads.  Monotonicity of the clock is a hypothesis where a claim needs it.
* `raise HTTPException(...)` becomes `Except.error` carrying the status
  code and detail string; FastAPI maps these to HTTP responses unchanged.
* Python `str.strip()` is modelled by `py_strip` (both-ends `dropWhile`
  over ASCII whitespace, where Python and Lean agree), and a Python `dict`
  comprehension by an insertion-ordered association list (`dictOfPairs`),
  matching Python's insertion-order semantics including key overwrite.
-/

/-- One entry of a pipeline's output: a dict with a `label` and a `score`
(the model's confidence). -/
structure RawLabelScore where
  label : String
  score : Rat
  deriving Repr, DecidableEq

/-- A loaded inference pipeline: called on a text, it either raises
(`Except.error` with the exception text) or returns its list of results. -/
abbrev Pipeline := String → Except String (List RawLabelScore)

/-- The module-level globals `sentiment_pipeline` and `emotion_pipeline`
of `main.py`; `none` models the Python value `None`. -/
structure Env where
  sentiment_pipeline : Option Pipeline
  emotion_pipeline : Option Pipeline

/-- `fastapi.HTTPException`: a status code and a detail message. -/
structure HTTPException where
  status_code : Nat
  detail : String
  deriving Repr, DecidableEq

/-- The `SentimentResult` pydantic model.  `emotions` is an
insertion-ordered association list standing for the Python dict. -/
structure SentimentResult where
  text : String
  sentiment : String
  confidence : Rat
  score : Rat
  emotions : Option (List (String × Rat))
  processing_time : Rat
  deriving Repr, DecidableEq

/-- The `BatchSentimentResult` pydantic model. -/
structure BatchSentimentResult where
  results : List SentimentResult
  total_processing_time : Rat
  deriving Repr, DecidableEq

/-- Insert a key/value pair into an insertion-ordered association list with
Python-dict semantics: an existing key keeps its position but its value is
overwritten; a new key is appended. -/
def dictInsert (d : List (String × Rat)) (key : String) (v : Rat) :
    List (String × Rat) :=
  if d.any (fun p => p.1 = key) then
    d.map (fun p => if p.1 = key then (key, v) else p)
  else
    d ++ [(key, v)]

/-- Build a Python dict (as an insertion-ordered association list) from a
sequence of key/value pairs, as a dict comprehension does. -/
def dictOfPairs (ps : List (String × Rat)) : List (String × Rat) :=
  ps.foldl (fun d p => dictInsert d p.1 p.2) []

/-- Python `str.strip()` with no argument (modelled for ASCII whitespace,
where Python and `Char.isWhitespace` agree): drop whitespace from both
ends. -/
def py_strip (s : String) : String :=
  ⟨((s.data.dropWhile Char.isWhitespace).reverse.dropWhile
      Char.isWhitespace).reverse⟩

/-- Python `str.lower()` (modelled for the ASCII labels the classifiers
emit): lower-case every character. -/
def py_lower (s : String) : String := ⟨s.data.map Char.toLower⟩

/-- `analyze_single_text` of `main.py` (lines 77-125).

Reads the clock at indices `k` (for `start_time`) and `k + 1` (for
`processing_time`) and returns the next free clock index alongside the
result.  The three `.error` branches are the Python exceptions caught by
the surrounding `try`, re-raised as `HTTPException(500, "Analysis failed:
...")`: calling a `None` pipeline (`TypeError`), the pipeline itself
throwing, and indexing `[0]` into an empty result list (`IndexError`). -/
def analyze_single_text (env : Env) (now : Nat → Rat) (k : Nat)
    (text : String) : Except HTTPException (SentimentResult × Nat) :=
  match env.sentiment_pipeline with
  | none =>
      .error ⟨500, "Analysis failed: 'NoneType' object is not callable"⟩
  | some pipe =>
    match pipe text with
    | .error e => .error ⟨500, "Analysis failed: " ++ e⟩
    | .ok [] => .error ⟨500, "Analysis failed: list index out of range"⟩
    | .ok (r :: _) =>
      let label := py_lower r.label
      let confidence := r.score
      let sentiment : String :=
        if label = "positive" ∨ label = "pos" then "positive"
        else if label = "negative" ∨ label = "neg" then "negative"
        else "neutral"
      let score : Rat :=
        if label = "positive" ∨ label = "pos" then confidence
        else if label = "negative" ∨ label = "neg" then -confidence
        else 0
      let emotions : Option (List (String × Rat)) :=
        match env.emotion_pipeline with
        | none => none
        | some epipe =>
          match epipe text with
          | .error _ => none
          | .ok ers =>
              some (dictOfPairs ((ers.take 3).map
                (fun er => (er.label, er.score))))
      .ok ({ text := text
             sentiment := sentiment
             confidence := confidence
             score := score
             emotions := emotions
             processing_time := now (k + 1) - now k }, k + 2)

/-- The `POST /analyze` handler `analyze_sentiment` (lines 140-149):
503 if the sentiment pipeline is `None`, 400 if the text strips to empty,
otherwise `analyze_single_text`. -/
def analyze_sentiment (env : Env) (now : Nat → Rat) (k : Nat)
    (text : String) : Except HTTPException (SentimentResult × Nat) :=
  if env.sentiment_pipeline.isNone then
    .error ⟨503, "Sentiment model not loaded"⟩
  else if py_strip text = "" then
    .error ⟨400, "Text cannot be empty"⟩
  else
    analyze_single_text env now k text

/-- The `for text in input_data.texts` loop of `analyze_batch_sentiment`
(lines 166-169): texts that strip to empty are skipped, every other text
goes through `analyze_single_text` and its result is appended; the first
exception aborts the loop. -/
def batch_loop (env : Env) (now : Nat → Rat) :
    List String → Nat → Except HTTPException (List SentimentResult × Nat)
  | [], k => .ok ([], k)
  | t :: ts, k =>
    if py_strip t = "" then
      batch_loop env now ts k
    else
      match analyze_single_text env now k t with
      | .error e => .error e
      | .ok (r, k') =>
        match batch_loop env now ts k' with
        | .error e => .error e
        | .ok (rs, k'') => .ok (r :: rs, k'')

/-- The `POST /analyze/batch` handler `analyze_batch_sentiment`
(lines 151-176): 503 if the sentiment pipeline is `None`, 400 on an empty
list, 400 on more than 100 texts, otherwise the sequential loop bracketed
by the two clock reads for `total_processing_time`. -/
def analyze_batch_sentiment (env : Env) (now : Nat → Rat) (k : Nat)
    (texts : List String) :
    Except HTTPException (BatchSentimentResult × Nat) :=
  if env.sentiment_pipeline.isNone then
    .error ⟨503, "Sentiment model not loaded"⟩
  else if texts.isEmpty then
    .error ⟨400, "Texts list cannot be empty"⟩
  else if texts.length > 100 then
    .error ⟨400, "Maximum 100 texts per batch"⟩
  else
    match batch_loop env now texts (k + 1) with
    | .error e => .error e
    | .ok (results, k') =>
        .ok ({ results := results
               total_processing_time := now k' - now k }, k' + 1)

/-- The model flags reported by the `GET /health` handler `health_check`
(lines 178-192).  The timestamp and CUDA fields delegate to external
collaborators (`datetime`, `torch`) and carry no logic of this service;
only the authored fields are embedded. -/
structure HealthStatus where
  status : String
  sentiment_loaded : Bool
  emotion_loaded : Bool
  deriving Repr, DecidableEq

/-- `health_check` of `main.py`: `sentiment_loaded` and `emotion_loaded`
are `pipeline is not None` for each global. -/
def health_check (env : Env) : HealthStatus :=
  { status := "healthy"
    sentiment_loaded := env.sentiment_pipeline.isSome
    emotion_loaded := env.emotion_pipeline.isSome }

/-! ### Concrete fixtures used by the witness theorems -/

/-- A primary classifier that labels every text `POSITIVE` with
confidence 9/10 — except `"boom"`, on which it throws. -/
def posPipe : Pipeline := fun s =>
  if s = "boom" then .error "model exploded"
  else .ok [⟨"POSITIVE", 9/10⟩]

/-- An emotion classifier producing four ranked emotions. -/
def emoPipe : Pipeline := fun _ =>
  .ok [⟨"joy", 7/10⟩, ⟨"surprise", 2/10⟩, ⟨"fear", 1/20⟩, ⟨"anger", 1/100⟩]

/-- An emotion classifier that always throws. -/
def badEmoPipe : Pipeline := fun _ => .error "emotion inference failed"

/-- Both models loaded. -/
def envFull : Env := ⟨some posPipe, some emoPipe⟩

/-- Primary model loaded, emotion model absent. -/
def envNoEmo : Env := ⟨some posPipe, none⟩

/-- Primary model loaded, emotion model present but failing. -/
def envBadEmo : Env := ⟨some posPipe, some badEmoPipe⟩

/-- Neither model loaded (service before startup finishes). -/
def envDown : Env := ⟨none, none⟩

/-- A constant test clock. -/
def clock0 : Nat → Rat := fun _ => 0


/-! ### Helper lemmas about the embedded functions -/

/-- When the sentiment pipeline is loaded and returns a nonempty result
list, `analyze_single_text` succeeds and its output is the record built in
the source, component by component. -/
lemma analyze_single_text_eq (env : Env) (pipe : Pipeline) (now : Nat → Rat)
    (k : Nat) (text : String) (r : RawLabelScore) (rest : List RawLabelScore)
    (hp : env.sentiment_pipeline = some pipe)
    (hr : pipe text = .ok (r :: rest)) :
    analyze_single_text env now k text = .ok
      ({ text := text
         sentiment :=
           if py_lower r.label = "positive" ∨ py_lower r.label = "pos" then
             "positive"
           else if py_lower r.label = "negative" ∨ py_lower r.label = "neg" then
             "negative"
           else "neutral"
         confidence := r.score
         score :=
           if py_lower r.label = "positive" ∨ py_lower r.label = "pos" then
             r.score
           else if py_lower r.label = "negative" ∨ py_lower r.label = "neg" then
             -r.score
           else 0
         emotions :=
           match env.emotion_pipeline with
           | none => none
           | some epipe =>
             match epipe text with
             | .error _ => none
             | .ok ers =>
                 some (dictOfPairs ((ers.take 3).map
                   (fun er => (er.label, er.score))))
         processing_time := now (k + 1) - now k }, k + 2) := by
  simp only [analyze_single_text, hp, hr]

/-- When the pipeline itself throws, `analyze_single_text` re-raises a 500
whose detail appends the cause. -/
lemma analyze_single_text_error_pipe (env : Env) (pipe : Pipeline)
    (now : Nat → Rat) (k : Nat) (text : String) (cause : String)
    (hp : env.sentiment_pipeline = some pipe)
    (hthrow : pipe text = .error cause) :
    analyze_single_text env now k text =
      .error ⟨500, "Analysis failed: " ++ cause⟩ := by
  simp only [analyze_single_text, hp, hthrow]

/-- Every error `analyze_single_text` can produce has status code 500. -/
lemma analyze_single_text_error_status (env : Env) (now : Nat → Rat)
    (k : Nat) (text : String) (e : HTTPException)
    (h : analyze_single_text env now k text = .error e) :
    e.status_code = 500 := by
  cases hsp : env.sentiment_pipeline with
  | none =>
      simp only [analyze_single_text, hsp, Except.error.injEq] at h
      subst h; rfl
  | some pipe =>
      cases hpt : pipe text with
      | error c =>
          simp only [analyze_single_text, hsp, hpt, Except.error.injEq] at h
          subst h; rfl
      | ok lst =>
          cases lst with
          | nil =>
              simp only [analyze_single_text, hsp, hpt,
                Except.error.injEq] at h
              subst h; rfl
          | cons r rest =>
              simp [analyze_single_text, hsp, hpt] at h

/-- A successful `analyze_single_text` echoes the input text verbatim and
advances the clock counter by exactly two reads. -/
lemma analyze_single_text_ok_text (env : Env) (now : Nat → Rat) (k : Nat)
    (text : String) (res : SentimentResult) (k' : Nat)
    (h : analyze_single_text env now k text = .ok (res, k')) :
    res.text = text ∧ k' = k + 2 := by
  cases hsp : env.sentiment_pipeline with
  | none => simp [analyze_single_text, hsp] at h
  | some pipe =>
      cases hpt : pipe text with
      | error c => simp [analyze_single_text, hsp, hpt] at h
      | ok lst =>
          cases lst with
          | nil => simp [analyze_single_text, hsp, hpt] at h
          | cons r rest =>
              simp only [analyze_single_text, hsp, hpt, Except.ok.injEq,
                Prod.mk.injEq] at h
              obtain ⟨h1, h2⟩ := h
              subst h1
              subst h2
              exact ⟨rfl, rfl⟩

/-- The batch loop on a list of all-blank texts returns no results and
leaves the clock counter unchanged. -/
lemma batch_loop_all_blank (env : Env) (now : Nat → Rat) :
    ∀ (ts : List String) (k : Nat), (∀ t ∈ ts, py_strip t = "") →
      batch_loop env now ts k = .ok ([], k) := by
  intro ts
  induction ts with
  | nil => intro k _; rfl
  | cons t ts ih =>
      intro k hall
      have ht : py_strip t = "" := hall t (List.mem_cons_self t ts)
      simp only [batch_loop]
      rw [if_pos ht]
      exact ih k (fun s hs => hall s (List.mem_cons_of_mem t hs))

/-- Every error the batch loop can produce has status code 500. -/
lemma batch_loop_error_status (env : Env) (now : Nat → Rat) :
    ∀ (ts : List String) (k : Nat) (e : HTTPException),
      batch_loop env now ts k = .error e → e.status_code = 500 := by
  intro ts
  induction ts with
  | nil => intro k e h; cases h
  | cons t ts ih =>
      intro k e h
      simp only [batch_loop] at h
      by_cases ht : py_strip t = ""
      · rw [if_pos ht] at h
        exact ih k e h
      · rw [if_neg ht] at h
        cases ha : analyze_single_text env now k t with
        | error e1 =>
            simp only [ha, Except.error.injEq] at h
            subst h
            exact analyze_single_text_error_status env now k t e1 ha
        | ok p =>
            obtain ⟨r, k1⟩ := p
            simp only [ha] at h
            cases hb : batch_loop env now ts k1 with
            | error e2 =>
                simp only [hb, Except.error.injEq] at h
                subst h
                exact ih k1 e2 hb
            | ok q =>
                obtain ⟨rs, k2⟩ := q
                simp [hb] at h

/-- A successful batch loop yields exactly one result per non-blank text,
in input order, each result echoing its own text. -/
lemma batch_loop_ok_map_text (env : Env) (now : Nat → Rat) :
    ∀ (ts : List String) (k : Nat) (rs : List SentimentResult) (k' : Nat),
      batch_loop env now ts k = .ok (rs, k') →
      rs.map SentimentResult.text =
        ts.filter (fun t => !(py_strip t == "")) := by
  intro ts
  induction ts with
  | nil =>
      intro k rs k' h
      simp only [batch_loop, Except.ok.injEq, Prod.mk.injEq] at h
      obtain ⟨h1, h2⟩ := h
      subst h1
      rfl
  | cons t ts ih =>
      intro k rs k' h
      simp only [batch_loop] at h
      by_cases ht : py_strip t = ""
      · rw [if_pos ht] at h
        have hmap := ih k rs k' h
        have hpt : (!(py_strip t == "")) = false := by simp [ht]
        simp [List.filter_cons, hpt, hmap]
      · rw [if_neg ht] at h
        cases ha : analyze_single_text env now k t with
        | error e1 => simp [ha] at h
        | ok p =>
            obtain ⟨r, k1⟩ := p
            simp only [ha] at h
            cases hb : batch_loop env now ts k1 with
            | error e2 => simp [hb] at h
            | ok q =>
                obtain ⟨rs2, k2⟩ := q
                simp only [hb, Except.ok.injEq, Prod.mk.injEq] at h
                obtain ⟨h1, h2⟩ := h
                subst h1
                obtain ⟨htext, -⟩ :=
                  analyze_single_text_ok_text env now k t r k1 ha
                have hmap := ih k1 rs2 k2 hb
                have hpt : (!(py_strip t == "")) = true := by simp [ht]
                simp [List.filter_cons, hpt, htext, hmap]

/-- Folding `dictInsert` over pairs whose keys are fresh and pairwise
distinct just appends them in order. -/
lemma dictInsert_foldl_eq_append (ps : List (String × Rat)) :
    ∀ d : List (String × Rat), (∀ p ∈ ps, ∀ q ∈ d, q.1 ≠ p.1) →
      (ps.map Prod.fst).Nodup →
      ps.foldl (fun d p => dictInsert d p.1 p.2) d = d ++ ps := by
  induction ps with
  | nil => intro d _ _; simp
  | cons p ps ih =>
      intro d hdisj hnd
      rw [List.map_cons, List.nodup_cons] at hnd
      have h1 : dictInsert d p.1 p.2 = d ++ [p] := by
        rw [dictInsert, if_neg]
        · intro hany
          rw [List.any_eq_true] at hany
          obtain ⟨q, hq, hq1⟩ := hany
          exact hdisj p (List.mem_cons_self p ps) q hq (by simpa using hq1)
      simp only [List.foldl_cons, h1]
      rw [ih (d ++ [p]) ?_ hnd.2]
      · simp
      · intro p' hp' q hq
        rcases List.mem_append.mp hq with hqd | hqp
        · exact hdisj p' (List.mem_cons_of_mem p hp') q hqd
        · have hq' : q = p := by simpa using hqp
          subst hq'
          intro hcontra
          exact hnd.1 (hcontra ▸ List.mem_map_of_mem Prod.fst hp')

/-- On a pair list with pairwise-distinct keys, the Python dict
comprehension keeps exactly the pairs, in their original order. -/
lemma dictOfPairs_of_nodup (ps : List (String × Rat))
    (h : (ps.map Prod.fst).Nodup) : dictOfPairs ps = ps := by
  have := dictInsert_foldl_eq_append ps [] (by simp) h
  simpa [dictOfPairs] using this

lemma clock0_mono : Monotone clock0 := fun _ _ _ => le_refl 0

/-! ### The claims -/

/-- C1: For every input text, the label returned by the primary classifier
is normalized case-insensitively: a label in \x7b"positive","pos"\x7d yields
sentiment "positive" with score = +confidence; a label in
\x7b"negative","neg"\x7d yields sentiment "negative" with score =
-confidence; any other label yields sentiment "neutral" with score = 0.0,
regardless of confidence. -/
theorem C1_label_normalization (env : Env) (pipe : Pipeline)
    (now : Nat → Rat) (k : Nat) (text : String) (r : RawLabelScore)
    (rest : List RawLabelScore) (res : SentimentResult) (k' : Nat)
    (hp : env.sentiment_pipeline = some pipe)
    (hr : pipe text = .ok (r :: rest))
    (hok : analyze_single_text env now k text = .ok (res, k')) :
    res.confidence = r.score ∧
    ((py_lower r.label = "positive" ∨ py_lower r.label = "pos") →
       res.sentiment = "positive" ∧ res.score = r.score) ∧
    ((py_lower r.label = "negative" ∨ py_lower r.label = "neg") →
       res.sentiment = "negative" ∧ res.score = -r.score) ∧
    (¬(py_lower r.label = "positive" ∨ py_lower r.label = "pos") →
     ¬(py_lower r.label = "negative" ∨ py_lower r.label = "neg") →
       res.sentiment = "neutral" ∧ res.score = 0) := by
  rw [analyze_single_text_eq env pipe now k text r rest hp hr] at hok
  simp only [Except.ok.injEq, Prod.mk.injEq] at hok
  obtain ⟨h1, -⟩ := hok
  subst h1
  refine ⟨rfl, ?_, ?_, ?_⟩
  · rintro (h | h) <;> exact ⟨by simp [h], by simp [h]⟩
  · rintro (h | h) <;> exact ⟨by simp [h], by simp [h]⟩
  · intro hne1 hne2
    exact ⟨by simp [if_neg hne1, if_neg hne2],
           by simp [if_neg hne1, if_neg hne2]⟩

/-- Witness for C1: a concrete classifier labelling `"good"` as
`"POSITIVE"` with confidence 9/10 yields sentiment `"positive"` and score
+9/10. -/
theorem C1_label_normalization_witness :
    envNoEmo.sentiment_pipeline = some posPipe ∧
    posPipe "good" = .ok [⟨"POSITIVE", 9/10⟩] ∧
    analyze_single_text envNoEmo clock0 0 "good" =
      .ok (⟨"good", "positive", 9/10, 9/10, none, clock0 1 - clock0 0⟩, 2) ∧
    (⟨"good", "positive", 9/10, 9/10, none, clock0 1 - clock0 0⟩ :
        SentimentResult).sentiment = "positive" ∧
    (⟨"good", "positive", 9/10, 9/10, none, clock0 1 - clock0 0⟩ :
        SentimentResult).score = 9/10 :=
  ⟨rfl, rfl, rfl,
    (C1_label_normalization envNoEmo posPipe clock0 0 "good"
        ⟨"POSITIVE", 9/10⟩ []
        ⟨"good", "positive", 9/10, 9/10, none, clock0 1 - clock0 0⟩ 2
        rfl rfl rfl).2.1 (Or.inl rfl)⟩

/-- C2: For every batch request, analyze_batch fails with a
ValidationError (400) if the texts list is empty or its length exceeds
100; a list of exactly 100 texts is accepted (any error is then an
inference 500, never a 400), and in particular a batch of 100
all-whitespace texts succeeds, returning a BatchResult with an empty
results sequence and a non-negative total_processing_time. -/
theorem C2_batch_size_validation (env : Env) (pipe : Pipeline)
    (now : Nat → Rat) (k : Nat)
    (hp : env.sentiment_pipeline = some pipe) (hmono : Monotone now) :
    (∀ texts : List String, texts = [] →
       analyze_batch_sentiment env now k texts =
         .error ⟨400, "Texts list cannot be empty"⟩) ∧
    (∀ texts : List String, texts.length > 100 →
       analyze_batch_sentiment env now k texts =
         .error ⟨400, "Maximum 100 texts per batch"⟩) ∧
    (∀ texts : List String, texts.length = 100 →
       ∀ e, analyze_batch_sentiment env now k texts = .error e →
         e.status_code = 500) ∧
    (∀ texts : List String, texts.length = 100 →
       (∀ t ∈ texts, py_strip t = "") →
       analyze_batch_sentiment env now k texts =
         .ok ({ results := []
                total_processing_time := now (k + 1) - now k }, k + 2) ∧
       0 ≤ now (k + 1) - now k) := by
  refine ⟨?_, ?_, ?_, ?_⟩
  · intro texts h
    subst h
    simp [analyze_batch_sentiment, hp]
  · intro texts h
    cases texts with
    | nil => simp at h
    | cons a as =>
        simp only [analyze_batch_sentiment, hp, Option.isNone_some,
          Bool.false_eq_true, if_false, List.isEmpty_cons]
        rw [if_pos h]
  · intro texts hlen e herr
    cases texts with
    | nil => simp at hlen
    | cons a as =>
        have h100 : ¬((a :: as).length > 100) := by omega
        simp only [analyze_batch_sentiment, hp, Option.isNone_some,
          Bool.false_eq_true, if_false, List.isEmpty_cons, h100] at herr
        cases hb : batch_loop env now (a :: as) (k + 1) with
        | error e2 =>
            simp only [hb, Except.error.injEq] at herr
            subst herr
            exact batch_loop_error_status env now (a :: as) (k + 1) e2 hb
        | ok q =>
            obtain ⟨rs, k2⟩ := q
            simp [hb] at herr
  · intro texts hlen hblank
    have hloop := batch_loop_all_blank env now texts (k + 1) hblank
    cases texts with
    | nil => simp at hlen
    | cons a as =>
        have h100 : ¬((a :: as).length > 100) := by omega
        constructor
        · simp only [analyze_batch_sentiment, hp, Option.isNone_some,
            Bool.false_eq_true, if_false, List.isEmpty_cons]
          rw [if_neg h100, hloop]
        · exact sub_nonneg.mpr (hmono (Nat.le_succ k))

/-- Witness for C2: with the primary model loaded and a constant clock,
the empty batch is a 400, a batch of 101 empty strings is a 400, and the
batch of 100 spaces returns an empty result list with total time 0. -/
theorem C2_batch_size_validation_witness :
    envNoEmo.sentiment_pipeline = some posPipe ∧ Monotone clock0 ∧
    analyze_batch_sentiment envNoEmo clock0 0 [] =
      .error ⟨400, "Texts list cannot be empty"⟩ ∧
    analyze_batch_sentiment envNoEmo clock0 0 (List.replicate 101 "x") =
      .error ⟨400, "Maximum 100 texts per batch"⟩ ∧
    (analyze_batch_sentiment envNoEmo clock0 0 (List.replicate 100 " ") =
       .ok ({ results := []
              total_processing_time := clock0 1 - clock0 0 }, 2) ∧
     0 ≤ clock0 1 - clock0 0) := by
  obtain ⟨h1, h2, h3, h4⟩ :=
    C2_batch_size_validation envNoEmo posPipe clock0 0 rfl clock0_mono
  exact ⟨rfl, clock0_mono,
    h1 [] rfl,
    h2 (List.replicate 101 "x") (by simp),
    h4 (List.replicate 100 " ") (by simp)
      (fun t ht => by rw [List.eq_of_mem_replicate ht]; rfl)⟩

/-- C3: For every single-text request whose text is empty or
whitespace-only, analyze fails with a ValidationError (400); this
emptiness rejection is enforced only in single mode — the same text inside
a batch is skipped, not rejected. -/
theorem C3_empty_text_single_mode_only (env : Env) (pipe : Pipeline)
    (now : Nat → Rat) (k : Nat) (text : String)
    (hp : env.sentiment_pipeline = some pipe)
    (hblank : py_strip text = "") :
    analyze_sentiment env now k text =
      .error ⟨400, "Text cannot be empty"⟩ ∧
    analyze_batch_sentiment env now k [text] =
      .ok ({ results := []
             total_processing_time := now (k + 1) - now k }, k + 2) := by
  constructor
  · simp [analyze_sentiment, hp, hblank]
  · have h100 : ¬([text].length > 100) := by simp
    have hloop := batch_loop_all_blank env now [text] (k + 1)
      (by simpa using hblank)
    simp only [analyze_batch_sentiment, hp, Option.isNone_some,
      Bool.false_eq_true, if_false, List.isEmpty_cons]
    rw [if_neg h100, hloop]

/-- Witness for C3: the whitespace-only text `"   "` is rejected with a
400 by the single endpoint but silently skipped by the batch endpoint. -/
theorem C3_empty_text_single_mode_only_witness :
    envNoEmo.sentiment_pipeline = some posPipe ∧ py_strip "   " = "" ∧
    analyze_sentiment envNoEmo clock0 0 "   " =
      .error ⟨400, "Text cannot be empty"⟩ ∧
    analyze_batch_sentiment envNoEmo clock0 0 ["   "] =
      .ok ({ results := []
             total_processing_time := clock0 1 - clock0 0 }, 2) := by
  obtain ⟨h1, h2⟩ :=
    C3_empty_text_single_mode_only envNoEmo posPipe clock0 0 "   " rfl rfl
  exact ⟨rfl, rfl, h1, h2⟩

/-- A successful `analyze_batch_sentiment` means validation passed and the
loop succeeded on exactly the returned results. -/
lemma analyze_batch_ok_results (env : Env) (now : Nat → Rat) (k : Nat)
    (texts : List String) (br : BatchSentimentResult) (k' : Nat)
    (hok : analyze_batch_sentiment env now k texts = .ok (br, k')) :
    ∃ k2, batch_loop env now texts (k + 1) = .ok (br.results, k2) := by
  unfold analyze_batch_sentiment at hok
  by_cases hsp : env.sentiment_pipeline.isNone = true
  · rw [if_pos hsp] at hok; cases hok
  · rw [if_neg hsp] at hok
    by_cases hemp : texts.isEmpty = true
    · rw [if_pos hemp] at hok; cases hok
    · rw [if_neg hemp] at hok
      by_cases h100 : texts.length > 100
      · rw [if_pos h100] at hok; cases hok
      · rw [if_neg h100] at hok
        cases hb : batch_loop env now texts (k + 1) with
        | error e => simp [hb] at hok
        | ok q =>
            obtain ⟨rs, k2⟩ := q
            simp only [hb, Except.ok.injEq, Prod.mk.injEq] at hok
            obtain ⟨hbr, -⟩ := hok
            exact ⟨k2, by rw [← hbr]⟩

/-- C4: For every accepted batch, texts that are empty or whitespace-only
are skipped silently, every other text produces exactly one
SentimentResult, and the results sequence is in exactly the same order as
the non-skipped input texts. -/
theorem C4_batch_skip_and_order (env : Env) (now : Nat → Rat) (k : Nat)
    (texts : List String) (br : BatchSentimentResult) (k' : Nat)
    (hok : analyze_batch_sentiment env now k texts = .ok (br, k')) :
    br.results.map SentimentResult.text =
      texts.filter (fun t => !(py_strip t == "")) := by
  obtain ⟨k2, hloop⟩ := analyze_batch_ok_results env now k texts br k' hok
  exact batch_loop_ok_map_text env now texts (k + 1) br.results k2 hloop

/-- Witness for C4: the batch `["bad day", "", "great news"]` yields
exactly two results, for `"bad day"` then `"great news"`, in that
order. -/
theorem C4_batch_skip_and_order_witness :
    analyze_batch_sentiment envNoEmo clock0 0 ["bad day", "", "great news"]
      = .ok ({ results :=
                 [⟨"bad day", "positive", 9/10, 9/10, none,
                     clock0 2 - clock0 1⟩,
                  ⟨"great news", "positive", 9/10, 9/10, none,
                     clock0 4 - clock0 3⟩]
               total_processing_time := clock0 5 - clock0 0 }, 6) ∧
    ({ results :=
         [⟨"bad day", "positive", 9/10, 9/10, none, clock0 2 - clock0 1⟩,
          ⟨"great news", "positive", 9/10, 9/10, none,
             clock0 4 - clock0 3⟩]
       total_processing_time := clock0 5 - clock0 0 } :
        BatchSentimentResult).results.map SentimentResult.text =
      ["bad day", "", "great news"].filter
        (fun t => !(py_strip t == "")) := by
  constructor
  · rfl
  · exact C4_batch_skip_and_order envNoEmo clock0 0
      ["bad day", "", "great news"] _ 6 rfl

/-- When the primary classifier throws on the first non-skipped text that
fails, the batch loop aborts with the 500 carrying that cause, no matter
what follows. -/
lemma batch_loop_error_propagates (env : Env) (pipe : Pipeline)
    (now : Nat → Rat) (t : String) (post : List String) (cause : String)
    (hp : env.sentiment_pipeline = some pipe)
    (ht : ¬ py_strip t = "") (hthrow : pipe t = .error cause) :
    ∀ (pre : List String) (k : Nat),
      (∀ s ∈ pre, py_strip s = "" ∨ ∃ r rest, pipe s = .ok (r :: rest)) →
      batch_loop env now (pre ++ t :: post) k =
        .error ⟨500, "Analysis failed: " ++ cause⟩ := by
  intro pre
  induction pre with
  | nil =>
      intro k _
      simp only [List.nil_append, batch_loop]
      rw [if_neg ht,
        analyze_single_text_error_pipe env pipe now k t cause hp hthrow]
  | cons s pre ih =>
      intro k hall
      simp only [List.cons_append, batch_loop]
      by_cases hs : py_strip s = ""
      · rw [if_pos hs]
        exact ih k (fun x hx => hall x (List.mem_cons_of_mem s hx))
      · obtain ⟨r, rest, hsok⟩ :=
          (hall s (List.mem_cons_self s pre)).resolve_left hs
        rw [if_neg hs,
          analyze_single_text_eq env pipe now k s r rest hp hsok]
        have hrec := ih (k + 2)
          (fun x hx => hall x (List.mem_cons_of_mem s hx))
        simp only [List.append_eq, hrec]

/-- C5: If the primary classifier throws on a text of an accepted batch
(any earlier text being blank or classifying fine), the entire batch fails
with a 500 error whose message includes the underlying cause, and no
partial results are returned to the caller. -/
theorem C5_batch_aborts_on_inference_error (env : Env) (pipe : Pipeline)
    (now : Nat → Rat) (k : Nat) (pre post : List String)
    (t cause : String)
    (hp : env.sentiment_pipeline = some pipe)
    (hlen : (pre ++ t :: post).length ≤ 100)
    (hpre : ∀ s ∈ pre, py_strip s = "" ∨ ∃ r rest, pipe s = .ok (r :: rest))
    (ht : ¬ py_strip t = "") (hthrow : pipe t = .error cause) :
    analyze_batch_sentiment env now k (pre ++ t :: post) =
      .error ⟨500, "Analysis failed: " ++ cause⟩ ∧
    ∀ br k', analyze_batch_sentiment env now k (pre ++ t :: post) ≠
      .ok (br, k') := by
  have hloop := batch_loop_error_propagates env pipe now t post cause
    hp ht hthrow pre (k + 1) hpre
  have hne : ¬(pre ++ t :: post).isEmpty = true := by
    cases pre <;> simp
  have h100 : ¬((pre ++ t :: post).length > 100) := by omega
  have hmain : analyze_batch_sentiment env now k (pre ++ t :: post) =
      .error ⟨500, "Analysis failed: " ++ cause⟩ := by
    unfold analyze_batch_sentiment
    rw [hp]
    rw [if_neg (by simp), if_neg hne, if_neg h100, hloop]
  exact ⟨hmain, fun br k' hcontra => by rw [hmain] at hcontra; cases hcontra⟩

/-- Witness for C5: in the batch `["nice", "boom", "later"]` the
classifier throws on `"boom"`; the whole batch is a 500 mentioning the
cause and no BatchResult is produced. -/
theorem C5_batch_aborts_on_inference_error_witness :
    envNoEmo.sentiment_pipeline = some posPipe ∧
    (["nice"] ++ "boom" :: ["later"]).length ≤ 100 ∧
    ¬ py_strip "boom" = "" ∧
    posPipe "boom" = .error "model exploded" ∧
    analyze_batch_sentiment envNoEmo clock0 0
        (["nice"] ++ "boom" :: ["later"]) =
      .error ⟨500, "Analysis failed: " ++ "model exploded"⟩ := by
  obtain ⟨h1, -⟩ :=
    C5_batch_aborts_on_inference_error envNoEmo posPipe clock0 0
      ["nice"] ["later"] "boom" "model exploded" rfl (by decide)
      (fun s hs => by
        rcases List.mem_singleton.mp hs with rfl
        exact Or.inr ⟨⟨"POSITIVE", 9/10⟩, [], rfl⟩)
      (by decide) rfl
  exact ⟨rfl, by decide, by decide, rfl, h1⟩

/-- C6: Emotion classification is best-effort: if the secondary (emotion)
model is absent, or if it throws on a given input, the request still
succeeds and the SentimentResult merely has no emotions populated; when
the secondary model is unavailable, every SentimentResult lacks emotions
and the health check reports emotion_loaded = false. -/
theorem C6_emotion_best_effort (env : Env) (pipe : Pipeline)
    (now : Nat → Rat) (k : Nat)
    (hp : env.sentiment_pipeline = some pipe) :
    (env.emotion_pipeline = none →
       (∀ text r rest, pipe text = .ok (r :: rest) →
          ∃ res, analyze_single_text env now k text = .ok (res, k + 2) ∧
            res.emotions = none) ∧
       (health_check env).emotion_loaded = false) ∧
    (∀ epipe text msg r rest, env.emotion_pipeline = some epipe →
       epipe text = .error msg → pipe text = .ok (r :: rest) →
       ∃ res, analyze_single_text env now k text = .ok (res, k + 2) ∧
         res.emotions = none) := by
  constructor
  · intro hemo
    constructor
    · intro text r rest hr
      exact ⟨_, analyze_single_text_eq env pipe now k text r rest hp hr,
        by simp [hemo]⟩
    · simp [health_check, hemo]
  · intro epipe text msg r rest he hmsg hr
    exact ⟨_, analyze_single_text_eq env pipe now k text r rest hp hr,
      by simp [he, hmsg]⟩

/-- Witness for C6: with the emotion model absent the result of analysing
`"good"` carries no emotions and the health check reports
emotion_loaded = false; with a throwing emotion model the request still
succeeds, again without emotions. -/
theorem C6_emotion_best_effort_witness :
    envNoEmo.sentiment_pipeline = some posPipe ∧
    envNoEmo.emotion_pipeline = none ∧
    analyze_single_text envNoEmo clock0 0 "good" =
      .ok (⟨"good", "positive", 9/10, 9/10, none,
             clock0 1 - clock0 0⟩, 2) ∧
    (health_check envNoEmo).emotion_loaded = false ∧
    envBadEmo.emotion_pipeline = some badEmoPipe ∧
    badEmoPipe "good" = .error "emotion inference failed" ∧
    analyze_single_text envBadEmo clock0 0 "good" =
      .ok (⟨"good", "positive", 9/10, 9/10, none,
             clock0 1 - clock0 0⟩, 2) := by
  have h :=
    (C6_emotion_best_effort envNoEmo posPipe clock0 0 rfl).1 rfl
  exact ⟨rfl, rfl, rfl, h.2, rfl, rfl, rfl⟩

/-- C7: Both POST /analyze and POST /analyze/batch fail with a 503
ServiceUnavailable error whenever the primary sentiment model is not
loaded, and only serve requests (return a result) when it is loaded. -/
theorem C7_model_required (env : Env) (now : Nat → Rat) (k : Nat) :
    (env.sentiment_pipeline = none →
       (∀ text, analyze_sentiment env now k text =
          .error ⟨503, "Sentiment model not loaded"⟩) ∧
       (∀ texts, analyze_batch_sentiment env now k texts =
          .error ⟨503, "Sentiment model not loaded"⟩)) ∧
    (∀ text r, analyze_sentiment env now k text = .ok r →
       env.sentiment_pipeline.isSome = true) ∧
    (∀ texts r, analyze_batch_sentiment env now k texts = .ok r →
       env.sentiment_pipeline.isSome = true) := by
  refine ⟨?_, ?_, ?_⟩
  · intro hnone
    exact ⟨fun text => by simp [analyze_sentiment, hnone],
           fun texts => by simp [analyze_batch_sentiment, hnone]⟩
  · intro text r hok
    cases hsp : env.sentiment_pipeline with
    | none =>
        rw [analyze_sentiment] at hok
        simp [hsp] at hok
    | some p => simp
  · intro texts r hok
    cases hsp : env.sentiment_pipeline with
    | none =>
        rw [analyze_batch_sentiment] at hok
        simp [hsp] at hok
    | some p => simp

/-- Witness for C7: with no model loaded both endpoints answer 503; with
the model loaded the single endpoint returns a result. -/
theorem C7_model_required_witness :
    envDown.sentiment_pipeline = none ∧
    analyze_sentiment envDown clock0 0 "good" =
      .error ⟨503, "Sentiment model not loaded"⟩ ∧
    analyze_batch_sentiment envDown clock0 0 ["good"] =
      .error ⟨503, "Sentiment model not loaded"⟩ ∧
    envNoEmo.sentiment_pipeline.isSome = true := by
  obtain ⟨h1, -, h3⟩ := C7_model_required envDown clock0 0
  obtain ⟨ha, hb⟩ := h1 rfl
  have h4 := (C7_model_required envNoEmo clock0 0).2.1 "good"
    (⟨"good", "positive", 9/10, 9/10, none, clock0 1 - clock0 0⟩, 2) rfl
  exact ⟨rfl, ha "good", hb ["good"], h4⟩

/-- C9: In both endpoints the model-availability check precedes input
validation: with the primary model unavailable, whitespace-only text (or
an empty or oversized batch) yields the 503, never a 400
ValidationError. -/
theorem C9_availability_checked_first (env : Env) (now : Nat → Rat)
    (k : Nat) (hnone : env.sentiment_pipeline = none) :
    (∀ text, py_strip text = "" →
       analyze_sentiment env now k text =
         .error ⟨503, "Sentiment model not loaded"⟩ ∧
       ∀ d, analyze_sentiment env now k text ≠ .error ⟨400, d⟩) ∧
    (∀ texts : List String, texts = [] ∨ texts.length > 100 →
       analyze_batch_sentiment env now k texts =
         .error ⟨503, "Sentiment model not loaded"⟩ ∧
       ∀ d, analyze_batch_sentiment env now k texts ≠ .error ⟨400, d⟩) := by
  constructor
  · intro text _
    have h : analyze_sentiment env now k text =
        .error ⟨503, "Sentiment model not loaded"⟩ := by
      simp [analyze_sentiment, hnone]
    exact ⟨h, fun d hc => by rw [h] at hc; simp at hc⟩
  · intro texts _
    have h : analyze_batch_sentiment env now k texts =
        .error ⟨503, "Sentiment model not loaded"⟩ := by
      simp [analyze_batch_sentiment, hnone]
    exact ⟨h, fun d hc => by rw [h] at hc; simp at hc⟩

/-- Witness for C9: the model-down service answers 503 (not 400) to the
whitespace-only single text, to the empty batch, and to a batch of 101
texts. -/
theorem C9_availability_checked_first_witness :
    envDown.sentiment_pipeline = none ∧ py_strip "   " = "" ∧
    (analyze_sentiment envDown clock0 0 "   " =
       .error ⟨503, "Sentiment model not loaded"⟩ ∧
     analyze_sentiment envDown clock0 0 "   " ≠
       .error ⟨400, "Text cannot be empty"⟩) ∧
    (analyze_batch_sentiment envDown clock0 0 [] =
       .error ⟨503, "Sentiment model not loaded"⟩ ∧
     analyze_batch_sentiment envDown clock0 0 (List.replicate 101 "x") =
       .error ⟨503, "Sentiment model not loaded"⟩) := by
  obtain ⟨h1, h2⟩ := C9_availability_checked_first envDown clock0 0 rfl
  obtain ⟨ha, hb⟩ := h1 "   " rfl
  exact ⟨rfl, rfl, ⟨ha, hb "Text cannot be empty"⟩,
    (h2 [] (Or.inl rfl)).1,
    (h2 (List.replicate 101 "x") (Or.inr (by simp))).1⟩

/-- C8: When the emotion classifier is present and succeeds, the emotions
field is built from the first 3 results of the emotion classifier's output
sequence, as a mapping label → score that (for distinct labels, which is
what a classifier's ranking produces) preserves the engine's ranking
order. -/
theorem C8_emotions_top3_ordered (env : Env) (pipe epipe : Pipeline)
    (now : Nat → Rat) (k : Nat) (text : String) (r : RawLabelScore)
    (rest ers : List RawLabelScore)
    (hp : env.sentiment_pipeline = some pipe)
    (he : env.emotion_pipeline = some epipe)
    (hr : pipe text = .ok (r :: rest))
    (hers : epipe text = .ok ers) :
    ∃ res, analyze_single_text env now k text = .ok (res, k + 2) ∧
      res.emotions = some (dictOfPairs ((ers.take 3).map
        (fun er => (er.label, er.score)))) ∧
      (((ers.take 3).map RawLabelScore.label).Nodup →
        res.emotions = some ((ers.take 3).map
          (fun er => (er.label, er.score)))) := by
  refine ⟨_, analyze_single_text_eq env pipe now k text r rest hp hr,
    ?_, ?_⟩
  · simp [he, hers]
  · intro hnd
    have hk : (((ers.take 3).map
        (fun er => (er.label, er.score))).map Prod.fst).Nodup := by
      simpa [List.map_map, Function.comp] using hnd
    have hd := dictOfPairs_of_nodup _ hk
    simp only [he, hers, hd]

/-- Witness for C8: a four-emotion engine output is cut to its first
three pairs, in ranking order. -/
theorem C8_emotions_top3_ordered_witness :
    envFull.sentiment_pipeline = some posPipe ∧
    envFull.emotion_pipeline = some emoPipe ∧
    posPipe "good" = .ok [⟨"POSITIVE", 9/10⟩] ∧
    emoPipe "good" = .ok [⟨"joy", 7/10⟩, ⟨"surprise", 2/10⟩,
      ⟨"fear", 1/20⟩, ⟨"anger", 1/100⟩] ∧
    analyze_single_text envFull clock0 0 "good" =
      .ok (⟨"good", "positive", 9/10, 9/10,
            some [("joy", 7/10), ("surprise", 2/10), ("fear", 1/20)],
            clock0 1 - clock0 0⟩, 2) ∧
    some [("joy", (7:Rat)/10), ("surprise", 2/10), ("fear", 1/20)] =
      some (dictOfPairs ((([⟨"joy", 7/10⟩, ⟨"surprise", 2/10⟩,
        ⟨"fear", 1/20⟩, ⟨"anger", (1:Rat)/100⟩] :
          List RawLabelScore).take 3).map
            (fun er => (er.label, er.score)))) := by
  obtain ⟨res, hres, hem, -⟩ :=
    C8_emotions_top3_ordered envFull posPipe emoPipe clock0 0 "good"
      ⟨"POSITIVE", 9/10⟩ []
      [⟨"joy", 7/10⟩, ⟨"surprise", 2/10⟩, ⟨"fear", 1/20⟩, ⟨"anger", 1/100⟩]
      rfl rfl rfl rfl
  have hcomp : analyze_single_text envFull clock0 0 "good" =
      .ok (⟨"good", "positive", 9/10, 9/10,
            some [("joy", 7/10), ("surprise", 2/10), ("fear", 1/20)],
            clock0 1 - clock0 0⟩, 2) := rfl
  rw [hcomp, Except.ok.injEq, Prod.mk.injEq] at hres
  obtain ⟨h1, -⟩ := hres
  rw [← h1] at hem
  exact ⟨rfl, rfl, rfl, rfl, hcomp, hem⟩

/-- C10: For every successfully analyzed text (single or within a batch),
the classifier is consulted on the input string verbatim (the result's
confidence is the raw score the pipeline reports for the unmodified
string) and the text field of the returned SentimentResult equals the
original input string exactly, including surrounding whitespace. -/
theorem C10_text_passed_verbatim (env : Env) (now : Nat → Rat) (k : Nat) :
    (∀ text res k', analyze_single_text env now k text = .ok (res, k') →
       res.text = text) ∧
    (∀ (pipe : Pipeline) text r rest res k',
       env.sentiment_pipeline = some pipe →
       pipe text = .ok (r :: rest) →
       analyze_single_text env now k text = .ok (res, k') →
       res.confidence = r.score) ∧
    (∀ texts br k',
       analyze_batch_sentiment env now k texts = .ok (br, k') →
       ∀ res ∈ br.results, res.text ∈ texts) := by
  refine ⟨?_, ?_, ?_⟩
  · intro text res k' h
    exact (analyze_single_text_ok_text env now k text res k' h).1
  · intro pipe text r rest res k' hp hr hok
    rw [analyze_single_text_eq env pipe now k text r rest hp hr] at hok
    simp only [Except.ok.injEq, Prod.mk.injEq] at hok
    obtain ⟨h1, -⟩ := hok
    rw [← h1]
  · intro texts br k' hok res hres
    obtain ⟨k2, hloop⟩ := analyze_batch_ok_results env now k texts br k' hok
    have hmap :=
      batch_loop_ok_map_text env now texts (k + 1) br.results k2 hloop
    have hmem : res.text ∈ br.results.map SentimentResult.text :=
      List.mem_map_of_mem SentimentResult.text hres
    rw [hmap] at hmem
    exact List.mem_of_mem_filter hmem

/-- Witness for C10: the text `"  spaced  "` is echoed with its
surrounding whitespace intact and the confidence is the pipeline's raw
score for it. -/
theorem C10_text_passed_verbatim_witness :
    analyze_single_text envNoEmo clock0 0 "  spaced  " =
      .ok (⟨"  spaced  ", "positive", 9/10, 9/10, none,
            clock0 1 - clock0 0⟩, 2) ∧
    (⟨"  spaced  ", "positive", 9/10, 9/10, none,
        clock0 1 - clock0 0⟩ : SentimentResult).text = "  spaced  " ∧
    (⟨"  spaced  ", "positive", 9/10, 9/10, none,
        clock0 1 - clock0 0⟩ : SentimentResult).confidence =
      (⟨"POSITIVE", 9/10⟩ : RawLabelScore).score := by
  refine ⟨rfl, ?_, ?_⟩
  · exact (C10_text_passed_verbatim envNoEmo clock0 0).1 "  spaced  " _ 2
      rfl
  · exact (C10_text_passed_verbatim envNoEmo clock0 0).2.1 posPipe
      "  spaced  " ⟨"POSITIVE", 9/10⟩ [] _ 2 rfl rfl rfl
